import Mathlib

/-
  Verification of the document structuring / quality scoring pipeline
  (agents/context_validation_agent.py, agents/code_quality_agent.py,
  agents/master_agent.py).

  Conventions of the shallow embedding:
  * Python floats on the score paths are modelled as rationals (ℚ); all the
    constants involved (0.1, 0.15, 0.2, 0.25, 0.4, 0.7, 0.8) are exact.
  * Python `set`s (whose iteration order is unspecified) are modelled as
    `Finset`; Python dicts with insertion order are modelled as association
    lists updated in place.
  * Python exceptions are modelled with `Except String`.
  * Lexical helpers that only feed boolean decisions (regex searches such as
    `_has_section`, `_prompt_addresses_section`, word-boundary entity search)
    are abstracted as boolean-valued parameters; everything arithmetic or
    structural is translated statement by statement from the source.
-/

namespace Aura

/-- `DLDSection` dataclass of context_validation_agent.py: a titled, typed
span of document text.  `extracted_entities` is produced by
`list(set(...))` in the source, so it is modelled as a `Finset`. -/
structure DLDSection where
  title : String
  content : String
  section_type : String
  confidence : ℚ
  extracted_entities : Finset String
deriving DecidableEq

/-! ### Similarity utility (`_calculate_content_similarity`) -/

/-- `content.lower()` restricted to ASCII, as a character map. -/
def pyLowerChar (c : Char) : Char := c.toLower

/-- `str.split()` with no argument: split on whitespace runs, dropping empty
tokens, after lowercasing (`content.lower().split()`). -/
def pyTokensAux : List Char → List Char → List String
  | [], acc => if acc.isEmpty then [] else [String.mk acc.reverse]
  | c :: rest, acc =>
      if c.isWhitespace then
        (if acc.isEmpty then [] else [String.mk acc.reverse]) ++ pyTokensAux rest []
      else
        pyTokensAux rest (c :: acc)

/-- Token list of `content.lower().split()`. -/
def pyTokens (s : String) : List String :=
  pyTokensAux (s.toList.map pyLowerChar) []

/-- `set(content.lower().split())`. -/
def pyWords (s : String) : Finset String :=
  (pyTokens s).toFinset

/-- The arithmetic core of `_calculate_content_similarity` on the two word
sets: `0.0` if either set is empty, else `intersection / union` (guarded by
`union > 0`, as in the source). -/
def jaccard (w1 w2 : Finset String) : ℚ :=
  if w1 = ∅ ∨ w2 = ∅ then 0
  else if 0 < (w1 ∪ w2).card then ((w1 ∩ w2).card : ℚ) / ((w1 ∪ w2).card : ℚ)
  else 0

/-- `_calculate_content_similarity(content1, content2)`. -/
def calculate_content_similarity (content1 content2 : String) : ℚ :=
  jaccard (pyWords content1) (pyWords content2)

/-! ### Required sections and coverage (`required_sections`,
`_detect_missing_information`) -/

/-- The keys of `self.required_sections`, in declaration order. -/
def requiredSectionList : List String :=
  ["system_overview", "requirements", "interfaces", "performance",
   "security", "implementation"]

/-- The `weight` field of each entry of `self.required_sections`. -/
def sectionWeight : String → ℚ
  | "system_overview" => 2/10
  | "requirements" => 25/100
  | "interfaces" => 2/10
  | "performance" => 15/100
  | "security" => 1/10
  | "implementation" => 1/10
  | _ => 0

/-- Return shape of `_detect_missing_information`. -/
structure MissingInfo where
  missing_sections : List String
  missing_weight : ℚ
  coverage_score : ℚ
deriving DecidableEq

/-- `_detect_missing_information`: required types minus the types found on
the extracted sections; `coverage_score = 1.0 - missing_weight`.  (The
source's `set` difference has unspecified order; the sum of weights does not
depend on it, and we keep catalog order.) -/
def detect_missing_information (sections : List DLDSection) : MissingInfo :=
  let missing := requiredSectionList.filter
    (fun t => !(sections.any (fun s => s.section_type == t)))
  let mw := (missing.map sectionWeight).sum
  { missing_sections := missing, missing_weight := mw, coverage_score := 1 - mw }

/-! ### Domain entities (`domain_entities`, `_extract_domain_entities`) -/

/-- `self.domain_entities`: the immutable catalog of 5G domain tokens,
grouped by entity class. -/
def domainEntityCatalog : List (String × List String) :=
  [("network_functions", ["AMF", "SMF", "UPF", "PCF", "AUSF", "UDM", "NRF", "NSSF"]),
   ("interfaces", ["N1", "N2", "N3", "N4", "N6", "N8", "N11", "N15", "N22", "Xn", "F1"]),
   ("protocols", ["NAS", "NGAP", "PFCP", "HTTP/2", "SBI", "SCTP", "GTP"]),
   ("frequency_bands", ["FR1", "FR2", "sub6", "mmWave", "n1", "n3", "n7", "n28", "n78"]),
   ("technologies", ["5G NR", "LTE", "NSA", "SA", "MIMO", "beamforming", "carrier aggregation"])]

/-- `_extract_domain_entities`, with the word-boundary regex search for one
token abstracted as the boolean predicate `found`: a class is included in the
result iff at least one of its tokens is found, and only the found tokens are
reported. -/
def extract_domain_entities (catalog : List (String × List String))
    (found : String → Bool) : List (String × List String) :=
  catalog.filterMap (fun p =>
    let f := p.2.filter found
    if f.isEmpty then none else some (p.1, f))

/-! ### Section reconciler (`_merge_sections`)

The source groups sections into the Python dict `merged` keyed by
`section_type` (insertion-ordered; updating a key keeps its position).  When
a key is already present it either merges (similarity > 0.7) or tries to
store the new section under `f"{key}_alt"` after `section._replace(...)`;
`DLDSection` is a `@dataclass`, which has no `_replace` method, so that
branch raises `AttributeError` — modelled with `Except.error`. -/

/-- The merged section built on the similarity > 0.7 branch of
`_merge_sections` (title = longer, content concatenated with a blank-line
separator, confidence = max, entities = set union, type = dict key). -/
def merge_two_sections (existing sec : DLDSection) : DLDSection :=
  { title := if existing.title.length > sec.title.length then existing.title else sec.title
    content := existing.content ++ "\n\n" ++ sec.content
    section_type := sec.section_type
    confidence := max existing.confidence sec.confidence
    extracted_entities := existing.extracted_entities ∪ sec.extracted_entities }

/-- `merged[key]` lookup on the insertion-ordered dict. -/
def assocFind : List (String × DLDSection) → String → Option DLDSection
  | [], _ => none
  | (k, v) :: rest, key => if k = key then some v else assocFind rest key

/-- `merged[key] = value` on an existing key (keeps the key's position). -/
def assocUpdate : List (String × DLDSection) → String → DLDSection →
    List (String × DLDSection)
  | [], _, _ => []
  | (k, v) :: rest, key, nv =>
      if k = key then (k, nv) :: rest else (k, v) :: assocUpdate rest key nv

/-- One iteration of the `for section in sections` loop of
`_merge_sections`. -/
def mergeStep (merged : List (String × DLDSection)) (sec : DLDSection) :
    Except String (List (String × DLDSection)) :=
  let key := sec.section_type
  match assocFind merged key with
  | some existing =>
      if 7/10 < calculate_content_similarity existing.content sec.content then
        .ok (assocUpdate merged key (merge_two_sections existing sec))
      else
        .error "AttributeError: DLDSection object has no attribute _replace"
  | none => .ok (merged ++ [(key, sec)])

/-- The loop of `_merge_sections`. -/
def mergeLoop : List (String × DLDSection) → List DLDSection →
    Except String (List (String × DLDSection))
  | merged, [] => .ok merged
  | merged, sec :: rest =>
      match mergeStep merged sec with
      | .error e => .error e
      | .ok merged' => mergeLoop merged' rest

/-- `_merge_sections(sections)`: `list(merged.values())` of the loop result,
or the propagated exception. -/
def merge_sections (sections : List DLDSection) :
    Except String (List DLDSection) :=
  (mergeLoop [] sections).map (fun m => m.map Prod.snd)

/-! ### Overall validity (`_calculate_overall_validity`) -/

/-- `_calculate_overall_validity`: coverage ≥ 0.7 and consistency ≥ 0.7 and
`len(domain_entities) > 0`. -/
def calculate_overall_validity (coverage_score consistency_score : ℚ)
    (domain_entities : List (String × List String)) : Bool :=
  decide (7/10 ≤ coverage_score) &&
  decide (7/10 ≤ consistency_score) &&
  decide (0 < domain_entities.length)

/-! ### Quality scoring engine (code_quality_agent.py) -/

/-- `QualityMetric` enum. -/
inductive QualityMetric where
  | completeness
  | technical_accuracy
  | cursor_ai_compatibility
  | clarity
  | specificity
  | actionability
deriving DecidableEq

/-- `QualityAssessment` dataclass. -/
structure QualityAssessment where
  metric : QualityMetric
  score : ℚ
  details : String
  suggestions : List String
deriving DecidableEq

/-- The `weights` dict of `_calculate_overall_score` (every enum member has
an entry, so the `0.1` dict-miss default is unreachable). -/
def metricWeight : QualityMetric → ℚ
  | .completeness => 25/100
  | .technical_accuracy => 25/100
  | .cursor_ai_compatibility => 2/10
  | .clarity => 1/10
  | .specificity => 1/10
  | .actionability => 1/10

/-- `_calculate_overall_score`: weighted mean of the assessment scores, `0.0`
for an empty list or a non-positive total weight. -/
def calculate_overall_score (assessments : List QualityAssessment) : ℚ :=
  if assessments.isEmpty then 0
  else
    let total_score := (assessments.map (fun a => a.score * metricWeight a.metric)).sum
    let total_weight := (assessments.map (fun a => metricWeight a.metric)).sum
    if 0 < total_weight then total_score / total_weight else 0

/-- A section of the reference context (`dld_context["sections"]` entry),
used by `_verify_prompt_completeness` only through the boolean
`_prompt_addresses_section`. -/
structure RefSection where
  title : String
  content : String
deriving DecidableEq

/-- `required_sections` local of `_verify_prompt_completeness`: the four
textual markers checked via `_has_section`. -/
def requiredPromptMarkers : List String :=
  ["context", "requirements", "constraints", "task"]

/-- The markers `_has_section` reports present (`found_sections`). -/
def foundMarkers (hasSection : String → Bool) : List String :=
  requiredPromptMarkers.filter hasSection

/-- `covered_requirements / total_requirements` (only evaluated by the source
when `total_requirements > 0`). -/
def coverageFraction (dldSections : List RefSection)
    (addresses : RefSection → Bool) : ℚ :=
  ((dldSections.filter addresses).length : ℚ) / (dldSections.length : ℚ)

/-- `_verify_prompt_completeness`, with the regex checks `_has_section`,
`_prompt_addresses_section` and the score `_assess_domain_coverage`
abstracted as parameters.  Mirrors the source statement by statement:
`score += 0.2` per found marker; `coverage_ratio` is assigned only inside
`if total_requirements > 0:`, then `score += coverage_ratio * 0.4`;
`score += domain_coverage * 0.2`; the suggestion block reads
`coverage_ratio` unconditionally, so when no reference section exists the
function raises `UnboundLocalError` before returning; otherwise the returned
score is `min(score, 1.0)`. -/
def verify_prompt_completeness (hasSection : String → Bool)
    (dldSections : List RefSection) (addresses : RefSection → Bool)
    (domain_coverage : ℚ) : Except String QualityAssessment :=
  let presence_score : ℚ := ((foundMarkers hasSection).length : ℚ) * (2/10)
  let coverage_ratio : Option ℚ :=
    if 0 < dldSections.length then some (coverageFraction dldSections addresses)
    else none
  let score : ℚ :=
    presence_score +
      (match coverage_ratio with | some r => r * (4/10) | none => 0) +
      domain_coverage * (2/10)
  let missing := requiredPromptMarkers.filter (fun s => !(hasSection s))
  let sugg1 : List String :=
    if missing.isEmpty then [] else ["Add missing sections"]
  match coverage_ratio with
  | none =>
      .error "UnboundLocalError: local variable coverage_ratio referenced before assignment"
  | some r =>
      let sugg2 := sugg1 ++
        (if r < 8/10 then ["Increase coverage of DLD requirements"] else [])
      let sugg3 := sugg2 ++
        (if domain_coverage < 6/10 then ["Include more 5G-specific technical details"] else [])
      .ok { metric := .completeness, score := min score 1, details := "", suggestions := sugg3 }

/-- Result shape of `validate_prompt`: the top-level success flag and
`quality_score`, the gating flag `validation_result.is_valid` (absent when
the inner computation raised), and the `error` field of the except-path
payload. -/
structure PromptValidationResult where
  success : Bool
  quality_score : ℚ
  passed : Option Bool
  error : Option String
deriving DecidableEq

/-- `validate_prompt(generated_prompt, dld_context, quality_threshold)`:
the completeness assessment (which may raise) is compiled together with the
other five assessments; `is_valid = overall_score >= quality_threshold` with
the caller-supplied threshold; any exception is caught and converted into
`{success: False, error: str(e), quality_score: 0.0}`. -/
def validate_prompt (completeness : Except String QualityAssessment)
    (others : List QualityAssessment) (quality_threshold : ℚ) :
    PromptValidationResult :=
  match completeness with
  | .error e => { success := false, quality_score := 0, passed := none, error := some e }
  | .ok a =>
      let overall := calculate_overall_score (a :: others)
      { success := true, quality_score := overall,
        passed := some (decide (quality_threshold ≤ overall)), error := none }

/-! ### Stage orchestrator (master_agent.py) -/

/-- Pipeline stage names, in execution order. -/
inductive Stage where
  | contextValidation
  | promptGeneration
  | qualityAssurance
  | llmIntegration
  | outputProcessing
  | feedbackLoop
deriving DecidableEq

/-- The `success` flag of the context-validation stage result. -/
structure ValidationStage where
  success : Bool
deriving DecidableEq

/-- The `success` flag of the prompt-generation stage result. -/
structure GenerationStage where
  success : Bool
deriving DecidableEq

/-- The quality stage result: `validate_prompt` always supplies both a
`success` flag and a `quality_score` (0.0 on its internal-failure path). -/
structure QualityStage where
  success : Bool
  quality_score : ℚ
deriving DecidableEq

/-- The LLM-integration stage result; on failure the source still supplies
`optimized_prompt` (fallback to the base prompt). -/
structure LLMStage where
  success : Bool
  optimized_prompt : String
deriving DecidableEq

/-- The output-processing stage result. -/
structure OutputStage where
  success : Bool
  final_prompt : String
deriving DecidableEq

/-- What each stage would return when invoked in this run. -/
structure StageOutputs where
  validation : ValidationStage
  generation : GenerationStage
  quality : QualityStage
  llm : LLMStage
  output : OutputStage
deriving DecidableEq

/-- The dict returned by `process_dld` / `_create_error_response`, plus the
bookkeeping field `executed` recording which stages were actually invoked. -/
structure PipelineResult where
  success : Bool
  error_message : Option String
  quality_score : ℚ
  prompt : Option String
  executed : List Stage
deriving DecidableEq

/-- `self.pipeline_state`: the inputs stored at the start of `process_dld`
plus the per-stage results written as the run progresses. -/
structure PipelineState where
  dld_content : String
  quality_threshold : ℚ
  validation_result : Option ValidationStage
  generation_result : Option GenerationStage
  quality_result : Option QualityStage
  llm_result : Option LLMStage
  output_result : Option OutputStage
deriving DecidableEq

/-- The long-lived `MasterAgent` object: `pipeline_state` is an instance
attribute (initially the empty dict, modelled as `none`). -/
structure MasterAgentState where
  pipeline_state : Option PipelineState
deriving DecidableEq

/-- `process_dld`: reassigns `self.pipeline_state` to a fresh dict, then runs
the stages in order; gates are `validation_result["success"]`,
`generation_result["success"]` and `quality_result["quality_score"] <
quality_threshold` — the LLM and output stage results are stored but never
gated.  Returns the result dict together with the mutated agent object. -/
def process_dld (m : MasterAgentState) (dld_content : String)
    (quality_threshold : ℚ) (include_feedback : Bool) (st : StageOutputs) :
    PipelineResult × MasterAgentState :=
  let ps0 : PipelineState :=
    { dld_content := dld_content, quality_threshold := quality_threshold,
      validation_result := none, generation_result := none,
      quality_result := none, llm_result := none, output_result := none }
  let ps1 := { ps0 with validation_result := some st.validation }
  if st.validation.success = false then
    ({ success := false, error_message := some "Context validation failed",
       quality_score := 0, prompt := none, executed := [.contextValidation] },
     { m with pipeline_state := some ps1 })
  else
    let ps2 := { ps1 with generation_result := some st.generation }
    if st.generation.success = false then
      ({ success := false, error_message := some "Prompt generation failed",
         quality_score := 0, prompt := none,
         executed := [.contextValidation, .promptGeneration] },
       { m with pipeline_state := some ps2 })
    else
      let ps3 := { ps2 with quality_result := some st.quality }
      if st.quality.quality_score < quality_threshold then
        ({ success := false, error_message := some "Quality threshold not met",
           quality_score := 0, prompt := none,
           executed := [.contextValidation, .promptGeneration, .qualityAssurance] },
         { m with pipeline_state := some ps3 })
      else
        let ps5 := { ps3 with llm_result := some st.llm, output_result := some st.output }
        ({ success := true, error_message := none,
           quality_score := st.quality.quality_score,
           prompt := some st.output.final_prompt,
           executed := [.contextValidation, .promptGeneration, .qualityAssurance,
                        .llmIntegration, .outputProcessing] ++
             (if include_feedback then [.feedbackLoop] else []) },
         { m with pipeline_state := some ps5 })

/-- `get_pipeline_status` (restricted to its `pipeline_state` entry): reads
the instance attribute of the long-lived agent. -/
def get_pipeline_status (m : MasterAgentState) : Option PipelineState :=
  m.pipeline_state

/-! ## Theorems -/

/-- The similarity arithmetic is symmetric in the two word sets. -/
theorem jaccard_comm (A B : Finset String) : jaccard A B = jaccard B A := by
  unfold jaccard
  by_cases h : A = ∅ ∨ B = ∅
  · rw [if_pos h, if_pos (Or.symm h)]
  · rw [if_neg h, if_neg (fun hc => h (Or.symm hc))]
    rw [Finset.union_comm, Finset.inter_comm]

/-- On a non-empty word set the similarity of a text with itself is 1. -/
theorem jaccard_self (A : Finset String) (h : A ≠ ∅) : jaccard A A = 1 := by
  have hpos : 0 < A.card :=
    Finset.card_pos.mpr (Finset.nonempty_iff_ne_empty.mpr h)
  unfold jaccard
  rw [if_neg (by simp [h]), Finset.union_self, Finset.inter_self, if_pos hpos]
  exact div_self (Nat.cast_ne_zero.mpr hpos.ne')

/-- C7 (amended): the content-similarity utility is symmetric, and
`Similarity(a, a) = 1.0` for every string `a` whose word set is non-empty
(i.e. containing at least one non-whitespace token); a non-empty but
whitespace-only string yields 0, not 1 (see the counterexample). -/
theorem C7_similarity_symm_self :
    (∀ a b : String,
      calculate_content_similarity a b = calculate_content_similarity b a) ∧
    (∀ a : String, pyWords a ≠ ∅ → calculate_content_similarity a a = 1) :=
  ⟨fun _ _ => jaccard_comm _ _, fun _ h => jaccard_self _ h⟩

/-- C7 witness: at the concrete one-token string "alpha" the amended theorem
gives self-similarity 1. -/
theorem C7_witness : calculate_content_similarity "alpha" "alpha" = 1 :=
  C7_similarity_symm_self.2 "alpha" (by decide)

/-- C7 counterexample: the single-space string is a non-empty string, yet
its self-similarity is 0, refuting `Similarity(a, a) = 1.0` for every
non-empty `a` as claimed. -/
theorem C7_counterexample :
    (" " : String) ≠ "" ∧ calculate_content_similarity " " " " = 0 :=
  ⟨by decide, by decide⟩

/-- C4: two sections of the same classified type with content similarity
above 0.7 are merged by `_merge_sections` into the single section whose
content is the concatenation with a blank-line separator, whose title is the
longer of the two titles, whose confidence is the max of the two (hence
non-decreasing), and whose entity set is the union. -/
theorem C4_merge_similar_sections (a b : DLDSection)
    (htype : a.section_type = b.section_type)
    (hsim : 7/10 < calculate_content_similarity a.content b.content) :
    merge_sections [a, b] = .ok [merge_two_sections a b] ∧
    (merge_two_sections a b).content = a.content ++ "\n\n" ++ b.content ∧
    ((merge_two_sections a b).title = a.title ∨
      (merge_two_sections a b).title = b.title) ∧
    a.title.length ≤ (merge_two_sections a b).title.length ∧
    b.title.length ≤ (merge_two_sections a b).title.length ∧
    (merge_two_sections a b).confidence = max a.confidence b.confidence ∧
    a.confidence ≤ (merge_two_sections a b).confidence ∧
    b.confidence ≤ (merge_two_sections a b).confidence ∧
    (merge_two_sections a b).extracted_entities =
      a.extracted_entities ∪ b.extracted_entities := by
  refine ⟨?_, rfl, ?_, ?_, ?_, rfl, le_max_left _ _, le_max_right _ _, rfl⟩
  · simp [merge_sections, mergeLoop, mergeStep, assocFind, assocUpdate, htype, hsim,
      Except.map]
  · simp only [merge_two_sections]
    split_ifs <;> simp
  · simp only [merge_two_sections]
    split_ifs with h <;> [exact le_rfl; omega]
  · simp only [merge_two_sections]
    split_ifs with h <;> [omega; exact le_rfl]

/-- Concrete input for the C4 witness. -/
def w4a : DLDSection :=
  ⟨"Overview", "alpha beta gamma", "system_overview", 8/10, {"AMF"}⟩

/-- Concrete input for the C4 witness. -/
def w4b : DLDSection :=
  ⟨"System Overview Detail", "alpha beta gamma delta", "system_overview", 6/10, {"SMF"}⟩

/-- C4 witness: on two concrete same-typed sections with Jaccard similarity
3/4 > 0.7 the merge produces exactly the merged section. -/
theorem C4_witness :
    merge_sections [w4a, w4b] = .ok [merge_two_sections w4a w4b] := by
  have hsim : 7/10 < calculate_content_similarity w4a.content w4b.content := by
    have h3 : ¬(pyWords w4a.content = ∅ ∨ pyWords w4b.content = ∅) := by decide
    have h1 : (pyWords w4a.content ∩ pyWords w4b.content).card = 3 := by decide
    have h2 : (pyWords w4a.content ∪ pyWords w4b.content).card = 4 := by decide
    rw [calculate_content_similarity, jaccard, if_neg h3, h1, h2, if_pos (by norm_num)]
    norm_num
  exact (C4_merge_similar_sections w4a w4b rfl hsim).1

/-- Concrete input for C5: same classified type, disjoint contents. -/
def c5a : DLDSection := ⟨"A", "alpha beta", "general", 8/10, ∅⟩

/-- Concrete input for C5: same classified type, disjoint contents. -/
def c5b : DLDSection := ⟨"B", "gamma delta", "general", 6/10, ∅⟩

/-- C5: evaluating `_merge_sections` at the failing input — two sections of
the same classified type with similarity 0 ≤ 0.7 — reaches the
keep-as-alternative branch, which calls `section._replace(...)` on a
`@dataclass` that has no `_replace` method: the merge raises
`AttributeError` instead of retaining the alternative entry. -/
theorem C5_alternative_branch_raises :
    merge_sections [c5a, c5b] =
      .error "AttributeError: DLDSection object has no attribute _replace" ∧
    calculate_content_similarity c5a.content c5b.content ≤ 7/10 := by
  have hsim : calculate_content_similarity "alpha beta" "gamma delta" = 0 := by
    have h3 : ¬(pyWords "alpha beta" = ∅ ∨ pyWords "gamma delta" = ∅) := by decide
    have h1 : (pyWords "alpha beta" ∩ pyWords "gamma delta").card = 0 := by decide
    have h2 : (pyWords "alpha beta" ∪ pyWords "gamma delta").card = 4 := by decide
    rw [calculate_content_similarity, jaccard, if_neg h3, h1, h2, if_pos (by norm_num)]
    norm_num
  have hlt : ¬(7/10 < calculate_content_similarity "alpha beta" "gamma delta") := by
    rw [hsim]; norm_num
  constructor
  · simp [merge_sections, mergeLoop, mergeStep, assocFind, c5a, c5b, hlt, Except.map]
  · show calculate_content_similarity "alpha beta" "gamma delta" ≤ 7/10
    rw [hsim]; norm_num

/-- A class survives `_extract_domain_entities` exactly when one of its
tokens is found. -/
theorem extract_domain_entities_ne_nil (catalog : List (String × List String))
    (found : String → Bool) :
    extract_domain_entities catalog found ≠ [] ↔
      ∃ p ∈ catalog, ∃ tok ∈ p.2, found tok = true := by
  rw [Ne, extract_domain_entities, List.filterMap_eq_nil_iff]
  simp only [not_forall]
  constructor
  · rintro ⟨p, hp, hfp⟩
    refine ⟨p, hp, ?_⟩
    by_contra hno
    push_neg at hno
    apply hfp
    have hnil : p.2.filter found = [] :=
      List.filter_eq_nil_iff.mpr (fun tok htok => by simp [hno tok htok])
    simp [hnil]
  · rintro ⟨p, hp, tok, htok, hf⟩
    refine ⟨p, hp, ?_⟩
    have hne : p.2.filter found ≠ [] := fun hnil => by
      have := List.filter_eq_nil_iff.mp hnil tok htok
      simp [hf] at this
    simp [List.isEmpty_iff, hne]

/-- C1: `_calculate_overall_validity` is the conjunction of exactly the
three conditions — coverage ≥ 0.7, consistency ≥ 0.7, and at least one
entity class found non-empty — and a document missing every required section
type with no recognized entity is invalid (coverage 0) for every
consistency score. -/
theorem C1_overall_validity :
    (∀ (cov cons : ℚ) (ents : List (String × List String)),
      calculate_overall_validity cov cons ents = true ↔
        (7/10 ≤ cov ∧ 7/10 ≤ cons ∧ ents ≠ [])) ∧
    (∀ (catalog : List (String × List String)) (found : String → Bool),
      extract_domain_entities catalog found ≠ [] ↔
        ∃ p ∈ catalog, ∃ tok ∈ p.2, found tok = true) ∧
    (∀ (sections : List DLDSection) (cons : ℚ) (found : String → Bool),
      (∀ t ∈ requiredSectionList, ∀ s ∈ sections, s.section_type ≠ t) →
      (∀ p ∈ domainEntityCatalog, ∀ tok ∈ p.2, found tok = false) →
      (detect_missing_information sections).coverage_score = 0 ∧
      calculate_overall_validity (detect_missing_information sections).coverage_score
        cons (extract_domain_entities domainEntityCatalog found) = false) := by
  refine ⟨?_, extract_domain_entities_ne_nil, ?_⟩
  · intro cov cons ents
    simp [calculate_overall_validity, List.length_pos, and_assoc]
  · intro sections cons found hsec hfound
    have hmiss : (detect_missing_information sections).missing_sections =
        requiredSectionList := by
      simp only [detect_missing_information]
      rw [List.filter_eq_self]
      intro t ht
      simp only [Bool.not_eq_eq_eq_not, Bool.not_true, List.any_eq_false]
      intro s hs
      simp [hsec t ht s hs]
    have hcov : (detect_missing_information sections).coverage_score = 0 := by
      have : (detect_missing_information sections).coverage_score =
          1 - (((detect_missing_information sections).missing_sections).map
            sectionWeight).sum := rfl
      rw [this, hmiss]
      norm_num [requiredSectionList, sectionWeight]
    refine ⟨hcov, ?_⟩
    have hext : extract_domain_entities domainEntityCatalog found = [] := by
      rw [extract_domain_entities, List.filterMap_eq_nil_iff]
      intro p hp
      have hnil : p.2.filter found = [] :=
        List.filter_eq_nil_iff.mpr (fun tok htok => by simp [hfound p hp tok htok])
      simp [hnil]
    rw [hext]
    simp [calculate_overall_validity]

/-- C1 witness: the empty document (no sections, nothing found) is invalid
at consistency score 1. -/
theorem C1_witness :
    (detect_missing_information ([] : List DLDSection)).coverage_score = 0 ∧
    calculate_overall_validity
      (detect_missing_information ([] : List DLDSection)).coverage_score 1
      (extract_domain_entities domainEntityCatalog (fun _ => false)) = false :=
  C1_overall_validity.2.2 [] 1 (fun _ => false) (by decide) (by decide)

/-- C3: the six fixed weights sum to 1, the coverage score is 1 minus the
sum of the weights of the missing required types, and a document whose
extracted sections are all (and at least one) of type `requirements` has
coverage `1 - (0.20 + 0.20 + 0.15 + 0.10 + 0.10) = 0.25`. -/
theorem C3_coverage_score :
    ((requiredSectionList.map sectionWeight).sum = 1) ∧
    (∀ sections : List DLDSection,
      (detect_missing_information sections).coverage_score =
        1 - (((detect_missing_information sections).missing_sections).map
          sectionWeight).sum) ∧
    (∀ sections : List DLDSection, sections ≠ [] →
      (∀ s ∈ sections, s.section_type = "requirements") →
      (detect_missing_information sections).coverage_score = 25/100) := by
  refine ⟨by norm_num [requiredSectionList, sectionWeight], fun _ => rfl, ?_⟩
  intro sections h1 h2
  obtain ⟨s0, hs0⟩ := List.exists_mem_of_ne_nil sections h1
  have hpos : sections.any (fun s => s.section_type == "requirements") = true := by
    rw [List.any_eq_true]
    exact ⟨s0, hs0, by simp [h2 s0 hs0]⟩
  have hneg : ∀ t : String, t ≠ "requirements" →
      sections.any (fun s => s.section_type == t) = false := by
    intro t ht
    rw [List.any_eq_false]
    intro s hs
    simp [h2 s hs, Ne.symm ht]
  have hmiss : (detect_missing_information sections).missing_sections =
      ["system_overview", "interfaces", "performance", "security",
       "implementation"] := by
    simp [detect_missing_information, requiredSectionList, hpos,
      hneg "system_overview" (by decide), hneg "interfaces" (by decide),
      hneg "performance" (by decide), hneg "security" (by decide),
      hneg "implementation" (by decide)]
  have : (detect_missing_information sections).coverage_score =
      1 - (((detect_missing_information sections).missing_sections).map
        sectionWeight).sum := rfl
  rw [this, hmiss]
  norm_num [sectionWeight]

/-- Concrete input for the C3 witness. -/
def w3 : DLDSection := ⟨"Requirements", "requirements body", "requirements", 8/10, ∅⟩

/-- C3 witness: a document with a single `requirements`-typed section has
coverage 0.25. -/
theorem C3_witness : (detect_missing_information [w3]).coverage_score = 25/100 :=
  C3_coverage_score.2.2 [w3] (by decide) (by decide)

/-- C2: for every caller-supplied threshold in [0,1] (a per-invocation
argument of `validate_prompt`, not global state) the quality outcome's
gating flag is true iff the overall score reaches the threshold, including
equality at the boundary; the returned `quality_score` is exactly that
overall score. -/
theorem C2_gating (c : QualityAssessment) (others : List QualityAssessment)
    (threshold : ℚ) (h0 : 0 ≤ threshold) (h1 : threshold ≤ 1) :
    ((validate_prompt (.ok c) others threshold).passed = some true ↔
      threshold ≤ calculate_overall_score (c :: others)) ∧
    (validate_prompt (.ok c) others threshold).quality_score =
      calculate_overall_score (c :: others) ∧
    (validate_prompt (.ok c) others threshold).success = true := by
  refine ⟨?_, rfl, rfl⟩
  simp [validate_prompt]

/-- C2 witness: at the boundary — a single completeness assessment of score
0.8 against threshold exactly 0.8 — the gate passes. -/
theorem C2_witness :
    (validate_prompt (.ok ⟨.completeness, 8/10, "", []⟩) [] (8/10)).passed =
      some true :=
  (C2_gating ⟨.completeness, 8/10, "", []⟩ [] (8/10) (by norm_num)
    (by norm_num)).1.mpr
    (by norm_num [calculate_overall_score, metricWeight])

/-- Concrete reference section used by the C6 input. -/
def refSec0 : RefSection := ⟨"Ref Title", "ref content"⟩

/-- C6 counterexample: with all four markers present, a one-section
reference context that the prompt does not address, and zero domain
coverage, the completeness score is 0.8, entirely contributed by the
presence check — refuting the claimed 0.4 cap on the presence
contribution. -/
theorem C6_counterexample :
    verify_prompt_completeness (fun _ => true) [refSec0] (fun _ => false) 0 =
      .ok { metric := .completeness, score := 8/10, details := "",
            suggestions := ["Increase coverage of DLD requirements",
                            "Include more 5G-specific technical details"] } ∧
    coverageFraction [refSec0] (fun _ => false) = 0 ∧
    ¬((8 : ℚ)/10 ≤ 4/10) := by
  refine ⟨?_, ?_, by norm_num⟩
  · norm_num [verify_prompt_completeness, foundMarkers, requiredPromptMarkers,
      coverageFraction]
  · norm_num [coverageFraction]

/-- C6 (amended): when the reference context has at least one section, the
completeness metric returns `min(presence + coverage·0.4 + domain·0.2, 1)`,
where the presence check contributes 0.2 per found marker — hence up to 0.8,
not 0.4 —, reference coverage contributes at most 0.4, domain coverage (for
a density in [0,1]) contributes at most 0.2, and the final score is clamped
into [0,1]. -/
theorem C6_completeness_contributions (hasSection : String → Bool)
    (secs : List RefSection) (addresses : RefSection → Bool) (dc : ℚ)
    (hsecs : 0 < secs.length) (hdc0 : 0 ≤ dc) (hdc1 : dc ≤ 1) :
    ∃ a, verify_prompt_completeness hasSection secs addresses dc = .ok a ∧
      a.metric = .completeness ∧
      a.score = min (((foundMarkers hasSection).length : ℚ) * (2/10) +
        coverageFraction secs addresses * (4/10) + dc * (2/10)) 1 ∧
      ((foundMarkers hasSection).length : ℚ) * (2/10) ≤ 8/10 ∧
      0 ≤ coverageFraction secs addresses ∧
      coverageFraction secs addresses * (4/10) ≤ 4/10 ∧
      dc * (2/10) ≤ 2/10 ∧
      0 ≤ a.score ∧ a.score ≤ 1 := by
  have hlen : ((foundMarkers hasSection).length : ℚ) ≤ 4 := by
    have h := List.length_filter_le hasSection requiredPromptMarkers
    have h4 : requiredPromptMarkers.length = 4 := rfl
    rw [foundMarkers]
    exact_mod_cast h4 ▸ h
  have hr0 : 0 ≤ coverageFraction secs addresses := by
    rw [coverageFraction]
    positivity
  have hr1 : coverageFraction secs addresses ≤ 1 := by
    rw [coverageFraction, div_le_one (by exact_mod_cast hsecs)]
    exact_mod_cast List.length_filter_le addresses secs
  have hok : verify_prompt_completeness hasSection secs addresses dc =
      .ok { metric := .completeness,
            score := min (((foundMarkers hasSection).length : ℚ) * (2/10) +
              coverageFraction secs addresses * (4/10) + dc * (2/10)) 1,
            details := "",
            suggestions :=
              (if (requiredPromptMarkers.filter (fun s => !(hasSection s))).isEmpty
                then [] else ["Add missing sections"]) ++
              (if coverageFraction secs addresses < 8/10
                then ["Increase coverage of DLD requirements"] else []) ++
              (if dc < 6/10
                then ["Include more 5G-specific technical details"] else []) } := by
    simp only [verify_prompt_completeness, if_pos hsecs]
  have hnn : (0 : ℚ) ≤ ((foundMarkers hasSection).length : ℚ) * (2/10) +
      coverageFraction secs addresses * (4/10) + dc * (2/10) := by
    have := Nat.cast_nonneg (α := ℚ) (foundMarkers hasSection).length
    nlinarith
  refine ⟨_, hok, rfl, rfl, by nlinarith, hr0, by nlinarith, by nlinarith,
    le_min hnn (by norm_num), min_le_right _ _⟩

/-- C6 witness: a concrete instance — every marker present, every reference
section addressed, domain coverage 1/2 — yields a completeness score in
[0,1]. -/
theorem C6_witness :
    ∃ a, verify_prompt_completeness (fun _ => true) [refSec0] (fun _ => true)
        (1/2) = .ok a ∧ 0 ≤ a.score ∧ a.score ≤ 1 := by
  obtain ⟨a, h1, _, _, _, _, _, _, h8, h9⟩ :=
    C6_completeness_contributions (fun _ => true) [refSec0] (fun _ => true)
      (1/2) (by decide) (by norm_num) (by norm_num)
  exact ⟨a, h1, h8, h9⟩

/-- C10: when the reference context carries no sections, the completeness
computation reads the unassigned `coverage_ratio` local and raises
`UnboundLocalError`, so `validate_prompt` never builds a quality outcome:
the boundary handler converts the fault into `{success: false,
quality_score: 0.0}` with a non-empty error string. -/
theorem C10_empty_reference_sections (hasSection : String → Bool)
    (addresses : RefSection → Bool) (dc : ℚ)
    (others : List QualityAssessment) (threshold : ℚ) :
    verify_prompt_completeness hasSection [] addresses dc =
      .error "UnboundLocalError: local variable coverage_ratio referenced before assignment" ∧
    validate_prompt (verify_prompt_completeness hasSection [] addresses dc)
        others threshold =
      { success := false, quality_score := 0, passed := none,
        error := some
          "UnboundLocalError: local variable coverage_ratio referenced before assignment" } ∧
    ("UnboundLocalError: local variable coverage_ratio referenced before assignment"
      : String) ≠ "" := by
  have h : verify_prompt_completeness hasSection [] addresses dc =
      .error "UnboundLocalError: local variable coverage_ratio referenced before assignment" := rfl
  exact ⟨h, by rw [h]; rfl, by decide⟩

/-- Concrete stage outputs for the C8 counterexample: every gate passes but
the LLM-integration stage reports failure. -/
def st8 : StageOutputs :=
  ⟨⟨true⟩, ⟨true⟩, ⟨true, 1⟩, ⟨false, "base"⟩, ⟨true, "final"⟩⟩

/-- C8 counterexample: the LLM-integration stage result reports failure, yet
the orchestrator executes the output stage after it and returns a success
result — it does not halt at the first stage whose result reports
failure. -/
theorem C8_counterexample :
    st8.llm.success = false ∧
    (process_dld ⟨none⟩ "doc" (1/2) false st8).1.success = true ∧
    Stage.outputProcessing ∈ (process_dld ⟨none⟩ "doc" (1/2) false st8).1.executed := by
  refine ⟨rfl, ?_, ?_⟩ <;> norm_num [process_dld, st8]

/-- C8 (amended): the orchestrator gates only the context-validation
success flag, the prompt-generation success flag, and the quality score
against the caller-supplied threshold; it halts at the first failed of
those three gates, executing no later stage, with a uniform failure result
(`success = false`, quality score 0, non-empty error message); when all
three gates pass, the result is a fully populated success payload (prompt
and quality score present, no error) — but failure reports of the LLM and
output stages are not gated. -/
theorem C8_orchestrator_gates (m : MasterAgentState) (dld : String)
    (threshold : ℚ) (fb : Bool) (st : StageOutputs) :
    (st.validation.success = false →
      (process_dld m dld threshold fb st).1 =
        { success := false, error_message := some "Context validation failed",
          quality_score := 0, prompt := none,
          executed := [.contextValidation] }) ∧
    (st.validation.success = true → st.generation.success = false →
      (process_dld m dld threshold fb st).1 =
        { success := false, error_message := some "Prompt generation failed",
          quality_score := 0, prompt := none,
          executed := [.contextValidation, .promptGeneration] }) ∧
    (st.validation.success = true → st.generation.success = true →
      st.quality.quality_score < threshold →
      (process_dld m dld threshold fb st).1 =
        { success := false, error_message := some "Quality threshold not met",
          quality_score := 0, prompt := none,
          executed := [.contextValidation, .promptGeneration, .qualityAssurance] }) ∧
    (st.validation.success = true → st.generation.success = true →
      ¬(st.quality.quality_score < threshold) →
      (process_dld m dld threshold fb st).1.success = true ∧
      (process_dld m dld threshold fb st).1.error_message = none ∧
      (process_dld m dld threshold fb st).1.prompt = some st.output.final_prompt ∧
      (process_dld m dld threshold fb st).1.quality_score = st.quality.quality_score) ∧
    (∀ e, (process_dld m dld threshold fb st).1.error_message = some e → e ≠ "") := by
  refine ⟨?_, ?_, ?_, ?_, ?_⟩
  · intro h1
    simp [process_dld, h1]
  · intro h1 h2
    simp [process_dld, h1, h2]
  · intro h1 h2 h3
    simp [process_dld, h1, h2, h3]
  · intro h1 h2 h3
    simp [process_dld, h1, h2, h3]
  · intro e he
    rw [process_dld] at he
    split_ifs at he <;> simp only [] at he <;> (injection he with he; subst he; decide)

/-- Concrete stage outputs for the C8 witness: context validation fails. -/
def st8f : StageOutputs :=
  ⟨⟨false⟩, ⟨true⟩, ⟨true, 1⟩, ⟨true, "base"⟩, ⟨true, "final"⟩⟩

/-- C8 witness: a failed context validation halts the pipeline after stage
one with the uniform failure result. -/
theorem C8_witness :
    (process_dld ⟨none⟩ "doc" 1 false st8f).1 =
      { success := false, error_message := some "Context validation failed",
        quality_score := 0, prompt := none,
        executed := [.contextValidation] } :=
  (C8_orchestrator_gates ⟨none⟩ "doc" 1 false st8f).1 rfl

/-- Concrete stage outputs for the C9 counterexample: every stage
succeeds. -/
def st9 : StageOutputs :=
  ⟨⟨true⟩, ⟨true⟩, ⟨true, 1⟩, ⟨true, "opt"⟩, ⟨true, "fin"⟩⟩

/-- C9 counterexample: after `process_dld` returns, the run's entire
pipeline state — its inputs and all five stage results — is still stored on
the long-lived orchestrator object and observable by a subsequent
`get_pipeline_status` call, refuting "discarded at the end of the run". -/
theorem C9_counterexample :
    get_pipeline_status (process_dld ⟨none⟩ "doc" (1/2) false st9).2 =
      some { dld_content := "doc", quality_threshold := 1/2,
             validation_result := some ⟨true⟩,
             generation_result := some ⟨true⟩,
             quality_result := some ⟨true, 1⟩,
             llm_result := some ⟨true, "opt"⟩,
             output_result := some ⟨true, "fin"⟩ } ∧
    get_pipeline_status (process_dld ⟨none⟩ "doc" (1/2) false st9).2 ≠ none := by
  have h : get_pipeline_status (process_dld ⟨none⟩ "doc" (1/2) false st9).2 =
      some { dld_content := "doc", quality_threshold := 1/2,
             validation_result := some ⟨true⟩,
             generation_result := some ⟨true⟩,
             quality_result := some ⟨true, 1⟩,
             llm_result := some ⟨true, "opt"⟩,
             output_result := some ⟨true, "fin"⟩ } := by
    norm_num [process_dld, get_pipeline_status, st9]
  exact ⟨h, by rw [h]; simp⟩

/-- C9 (amended): the pipeline state is reassigned to a fresh value at the
start of every `process_dld` call — the call's outcome and stored state are
independent of whatever state the long-lived orchestrator held before — but
it IS stored on the orchestrator's `pipeline_state` instance attribute and
remains reachable there after the call returns, observable via
`get_pipeline_status`. -/
theorem C9_pipeline_state_persistence (m m' : MasterAgentState) (dld : String)
    (threshold : ℚ) (fb : Bool) (st : StageOutputs) :
    process_dld m dld threshold fb st = process_dld m' dld threshold fb st ∧
    (process_dld m dld threshold fb st).2.pipeline_state ≠ none ∧
    get_pipeline_status (process_dld m dld threshold fb st).2 =
      (process_dld m dld threshold fb st).2.pipeline_state ∧
    ∃ ps, (process_dld m dld threshold fb st).2.pipeline_state = some ps ∧
      ps.dld_content = dld ∧ ps.quality_threshold = threshold ∧
      ps.validation_result = some st.validation := by
  refine ⟨rfl, ?_, rfl, ?_⟩
  · rw [process_dld]
    split_ifs <;> simp
  · rw [process_dld]
    split_ifs <;> exact ⟨_, rfl, rfl, rfl, rfl⟩

end Aura
